import Mathlib

/-!
Shallow embedding of `src/app.py`, an Olympic-medals dashboard.

The program loads a CSV of medal counts, validates its columns, renames
"United States" to "United States of America", keeps the years 1992-2020,
derives a `Total_Medals` column, builds three dropdown option lists, and
serves four chart callbacks (pie, choropleth map, stacked area, bar), each
a pure `filter - groupby - sum - top-N` computation over the loaded table.

Modelling conventions:
* a pandas DataFrame is a `List` of typed rows;
* `groupby(k)[c].sum()` is: take the distinct keys in first-occurrence
  order, sort them ascending (pandas groupby sorts keys by default), and
  pair each key with the sum of column `c` over its rows;
* `nlargest(n, c)` is a stable descending sort by `c` followed by `take n`
  (pandas keeps the first of equal elements);
* a Dash dropdown value is `Option`-al: `none` models the Python `None`
  produced by clearing a dropdown;
* a callback that can raise (pandas `KeyError` on a missing column) returns
  `Except String`; `Except.error` models the uncaught exception, and
  `exit()` in the loader is likewise modelled as `Except.error`.
-/

/-- One CSV record as read from the source file, before derivation.
Fields mirror the eight required columns of `app.py` line 18. -/
structure RawRow where
  year : Int
  host_country : String
  host_city : String
  country_name : String
  country_code : String
  gold : Nat
  silver : Nat
  bronze : Nat
deriving Repr, DecidableEq

/-- One row of the working table `df`: a raw record plus the derived
`Total_Medals` column (`app.py` line 32). -/
structure Row where
  year : Int
  host_country : String
  host_city : String
  country_name : String
  country_code : String
  gold : Nat
  silver : Nat
  bronze : Nat
  total_medals : Nat
deriving Repr, DecidableEq

/-- A fetched and parsed CSV: its header line and its typed records. -/
structure CsvData where
  header : List String
  rows : List RawRow
deriving Repr, DecidableEq

/-- The eight required column names (`app.py` line 18). -/
def expected_cols_from_user : List String :=
  ["Year", "Host_country", "Host_city", "Country_Name", "Country_Code",
   "Gold", "Silver", "Bronze"]

/-- The required columns absent from the header (`app.py` line 19). -/
def missing_cols (header : List String) : List String :=
  expected_cols_from_user.filter (fun col => ¬ header.contains col)

/-- The country-name normalization of `app.py` line 26:
`replace('United States', 'United States of America')` acts per row. -/
def renameCountry (r : RawRow) : RawRow :=
  if r.country_name = "United States" then
    { r with country_name := "United States of America" }
  else r

/-- Derivation of the `Total_Medals` column (`app.py` line 32). -/
def addTotal (r : RawRow) : Row :=
  { year := r.year, host_country := r.host_country, host_city := r.host_city,
    country_name := r.country_name, country_code := r.country_code,
    gold := r.gold, silver := r.silver, bronze := r.bronze,
    total_medals := r.gold + r.silver + r.bronze }

/-- Construction of the working table `df` from the raw records
(`app.py` lines 26-32): rename the country on the full table, keep the
years 1992-2020, then add `Total_Medals`. -/
def buildWorkingTable (rows : List RawRow) : List Row :=
  (((rows.map renameCountry).filter
      (fun r => decide (1992 ≤ r.year ∧ r.year ≤ 2020))).map addTotal)

/-- The dataset loader (`app.py` lines 8-32): a fetch/parse failure or a
missing required column terminates startup (`exit()`, modelled as
`Except.error`); otherwise the working table is built. -/
def load_csv (fetched : Except String CsvData) : Except String (List Row) :=
  match fetched with
  | Except.error e => Except.error ("Error loading CSV: " ++ e)
  | Except.ok d =>
      let missing := missing_cols d.header
      if missing.isEmpty then Except.ok (buildWorkingTable d.rows)
      else
        Except.error
          ("Error: The CSV file is missing the following expected columns: "
            ++ String.intercalate ", " missing)

/-- Distinct elements of a list in first-occurrence order, as pandas
`unique()` and `drop_duplicates()` compute them; `seen` accumulates the
values already emitted. -/
def dedupFirst {α : Type} [DecidableEq α] (seen : List α) : List α → List α
  | [] => []
  | x :: xs =>
      if x ∈ seen then dedupFirst seen xs
      else x :: dedupFirst (x :: seen) xs

/-- Sum of a numeric column `f` over the rows of country `c`. -/
def countrySum (f : Row → Nat) (c : String) (t : List Row) : Nat :=
  ((t.filter (fun r => decide (r.country_name = c))).map f).sum

/-- `df.groupby('Country_Name', as_index=False)[col].sum()`: one
`(country, sum)` pair per distinct country, keys sorted ascending. -/
def groupbySumCountry (f : Row → Nat) (t : List Row) : List (String × Nat) :=
  (List.insertionSort (fun a b => a ≤ b)
      (dedupFirst [] (t.map Row.country_name))).map
    (fun c => (c, countrySum f c t))

/-- Descending comparison on the summed column, the sort key of
`nlargest`. -/
def geSnd (a b : String × Nat) : Prop := b.2 ≤ a.2

instance : DecidableRel geSnd := fun a b => inferInstanceAs (Decidable (b.2 ≤ a.2))

instance : IsTotal (String × Nat) geSnd := ⟨fun a b => le_total b.2 a.2⟩

instance : IsTrans (String × Nat) geSnd :=
  ⟨fun _ _ _ h1 h2 => le_trans h2 h1⟩

/-- `DataFrame.nlargest(n, col)`: stable descending sort by the summed
column, then the first `n` rows. -/
def nlargestPairs (n : Nat) (l : List (String × Nat)) : List (String × Nat) :=
  (List.insertionSort geSnd l).take n

/-- `df.groupby('Country_Name')[col].sum().nlargest(n).index`
(`app.py` line 166): the countries of the `n` largest sums. -/
def topCountries (f : Row → Nat) (n : Nat) (t : List Row) : List String :=
  (nlargestPairs n (groupbySumCountry f t)).map Prod.fst

/-- Sum of column `f` over the rows of country `c` and year `y`. -/
def countryYearSum (f : Row → Nat) (c : String) (y : Int) (t : List Row) : Nat :=
  ((t.filter (fun r => decide (r.country_name = c ∧ r.year = y))).map f).sum

/-- Ascending lexicographic order on `(Country_Name, Year)` keys, the key
order of a two-column pandas groupby. -/
def cyLe (a b : String × Int) : Prop :=
  a.1 < b.1 ∨ (a.1 = b.1 ∧ a.2 ≤ b.2)

instance : DecidableRel cyLe := fun a b =>
  inferInstanceAs (Decidable (a.1 < b.1 ∨ (a.1 = b.1 ∧ a.2 ≤ b.2)))

/-- `df.groupby(['Country_Name', 'Year'], as_index=False)[col].sum()`
(`app.py` line 165): one row per distinct `(country, year)` pair, keys
sorted ascending. -/
def groupbySumCountryYear (f : Row → Nat) (t : List Row) :
    List ((String × Int) × Nat) :=
  (List.insertionSort cyLe
      (dedupFirst [] (t.map (fun r => (r.country_name, r.year))))).map
    (fun k => (k, countryYearSum f k.1 k.2 t))

/-- The medal-metric dropdown values (`app.py` line 36). -/
def medal_types : List String := ["Gold", "Silver", "Bronze", "Total_Medals"]

/-- Column lookup `df[col]` for the metric columns the medal dropdown
offers: the projection when `col` is one of the four metric columns,
`none` (a pandas `KeyError`) otherwise. -/
def colFn (col : String) : Option (Row → Nat) :=
  if col = "Gold" then some Row.gold
  else if col = "Silver" then some Row.silver
  else if col = "Bronze" then some Row.bronze
  else if col = "Total_Medals" then some Row.total_medals
  else none

/-- `sorted(df['Country_Name'].unique())` (`app.py` line 35). -/
def all_countries (t : List Row) : List String :=
  List.insertionSort (fun a b => a ≤ b)
    (dedupFirst [] (t.map Row.country_name))

/-- The initial country dropdown value
(`all_countries[0] if all_countries else None`, `app.py` line 77). -/
def initial_country (t : List Row) : Option String :=
  match all_countries t with
  | [] => none
  | c :: _ => some c

/-- A value of the year dropdown: the literal `'All'`, a concrete year, or
the `None` of a cleared dropdown. -/
inductive YearSel where
  | all
  | year (y : Int)
  | null
deriving Repr, DecidableEq

/-- One entry of `year_options`: a display label and the dropdown value. -/
structure YearOpt where
  label : String
  value : YearSel
deriving Repr, DecidableEq

/-- Ascending order on `(Year, Host_city, Host_country)` triples by year,
the key of `sort_values('Year')`. -/
def yearKeyLe (a b : Int × String × String) : Prop := a.1 ≤ b.1

instance : DecidableRel yearKeyLe := fun a b =>
  inferInstanceAs (Decidable (a.1 ≤ b.1))

/-- The year dropdown options (`app.py` lines 39-42): the `'All'` entry
followed by one entry per distinct `(Year, Host_city, Host_country)`
triple, ordered by year, labelled `"year - city, country"`. -/
def yearOptionsOf (t : List Row) : List YearOpt :=
  { label := "All Years (1992-2020)", value := YearSel.all } ::
    (List.insertionSort yearKeyLe
        (dedupFirst []
          (t.map (fun r => (r.year, r.host_city, r.host_country))))).map
      (fun k =>
        { label := toString k.1 ++ " - " ++ k.2.1 ++ ", " ++ k.2.2,
          value := YearSel.year k.1 })

/-- A pie figure: title, optional placeholder text, and the
`(Medal_Type, Count)` slices with their fixed colors. -/
structure PieFig where
  title : String
  note : Option String
  data : List (String × Nat)
  colors : List (String × String)
deriving Repr, DecidableEq

/-- A choropleth figure: title and one `(country, value)` row per
location. -/
structure MapFig where
  title : String
  rows : List (String × Nat)
deriving Repr, DecidableEq

/-- An area figure: title and the plotted
`((country, year), value)` rows. -/
structure AreaFig where
  title : String
  rows : List ((String × Int) × Nat)
deriving Repr, DecidableEq

/-- A bar figure: title, the `(country, value)` bars, and the optional
fixed bar color. -/
structure BarFig where
  title : String
  rows : List (String × Nat)
  barColor : Option String
deriving Repr, DecidableEq

/-- The pie callback (`app.py` lines 108-137). A `None` selection - and
the empty string, also falsy in Python - yields the no-selection
placeholder; a country with no rows yields the no-data placeholder;
otherwise the Gold/Silver/Bronze sums for that country are returned in
fixed order with fixed colors. No operation can raise, so the result is
always `Except.ok`. -/
def update_pie_chart (sel : Option String) (t : List Row) :
    Except String PieFig :=
  match sel with
  | none =>
      Except.ok { title := "Please select a country",
                  note := some "No country selected", data := [], colors := [] }
  | some c =>
      if c = "" then
        Except.ok { title := "Please select a country",
                    note := some "No country selected", data := [], colors := [] }
      else
        let country_data := t.filter (fun r => decide (r.country_name = c))
        if country_data.isEmpty then
          Except.ok { title := "No data for " ++ c ++ " (1992-2020)",
                      note := some "No data available", data := [], colors := [] }
        else
          Except.ok
            { title := "Medal Distribution for " ++ c ++ " (1992-2020)",
              note := none,
              data := [("Gold", (country_data.map Row.gold).sum),
                       ("Silver", (country_data.map Row.silver).sum),
                       ("Bronze", (country_data.map Row.bronze).sum)],
              colors := [("Gold", "gold"), ("Silver", "silver"),
                         ("Bronze", "#cd7f32")] }

/-- The map callback (`app.py` lines 144-155): group the whole table by
country and sum the selected metric, one row per country, no truncation.
Indexing `df.groupby(...)[None]` or by a non-column raises `KeyError`. -/
def update_map_chart (sel : Option String) (t : List Row) :
    Except String MapFig :=
  match sel with
  | none => Except.error "KeyError: None"
  | some col =>
      match colFn col with
      | none => Except.error ("KeyError: " ++ col)
      | some f =>
          Except.ok
            { title := "Total " ++ col.replace "_" " "
                ++ " by Country (1992-2020)",
              rows := groupbySumCountry f t }

/-- The area callback (`app.py` lines 162-176): per-(country, year) sums,
restricted to the 10 countries with the largest all-years sums. A `None`
or non-column metric raises `KeyError`. -/
def update_area_chart (sel : Option String) (t : List Row) :
    Except String AreaFig :=
  match sel with
  | none => Except.error "KeyError: None"
  | some col =>
      match colFn col with
      | none => Except.error ("KeyError: " ++ col)
      | some f =>
          let df_country_year_medals := groupbySumCountryYear f t
          let top_10 := topCountries f 10 t
          Except.ok
            { title := "Top 10 Countries by " ++ col.replace "_" " "
                ++ " (1992-2020)",
              rows := df_country_year_medals.filter
                (fun p => decide (p.1.1 ∈ top_10)) }

/-- The year filter of the bar callback (`app.py` lines 189-190): no
filter for `'All'`; `df['Year'] == value` keeps no row when the value is
`None` and the matching rows when it is a year. -/
def barBase (ys : YearSel) (t : List Row) : List Row :=
  match ys with
  | YearSel.all => t
  | YearSel.year y => t.filter (fun r => decide (r.year = y))
  | YearSel.null => t.filter (fun _ => false)

/-- The title segment of the bar callback (`app.py` lines 188-195): the
matching `year_options` label, or the literal string form of the selected
value when no option matches. -/
def barTitleSegment (ys : YearSel) (t : List Row) : String :=
  match ys with
  | YearSel.all => "All Years (1992-2020)"
  | _ =>
      match (yearOptionsOf t).find? (fun o => o.value == ys) with
      | some o => o.label
      | none =>
          match ys with
          | YearSel.year y => toString y
          | _ => "None"

/-- The bar callback (`app.py` lines 184-213): restrict to the selected
year, group by country, sum the metric, keep the 10 largest in descending
order. A `None` or non-column metric raises `KeyError`. -/
def update_bar_chart (selMedal : Option String) (selYear : YearSel)
    (t : List Row) : Except String BarFig :=
  let base := barBase selYear t
  match selMedal with
  | none => Except.error "KeyError: None"
  | some col =>
      match colFn col with
      | none => Except.error ("KeyError: " ++ col)
      | some f =>
          Except.ok
            { title := "Top 10 Countries by " ++ col.replace "_" " " ++ " in "
                ++ barTitleSegment selYear t,
              rows := nlargestPairs 10 (groupbySumCountry f base),
              barColor :=
                if col = "Gold" then some "gold"
                else if col = "Silver" then some "silver"
                else if col = "Bronze" then some "#cd7f32"
                else none }

/-- Any of the four produced figures. -/
inductive Figure where
  | pie (f : PieFig)
  | map (f : MapFig)
  | area (f : AreaFig)
  | bar (f : BarFig)
deriving Repr, DecidableEq

/-- The process state after startup: the working table and the three
dropdown option lists, each computed once from the table
(`app.py` lines 29-42). -/
structure AppState where
  df : List Row
  country_options : List String
  medal_options : List String
  year_options : List YearOpt
deriving Repr, DecidableEq

/-- Startup: build the state from the loaded working table. -/
def init_app (t : List Row) : AppState :=
  { df := t, country_options := all_countries t,
    medal_options := medal_types, year_options := yearOptionsOf t }

/-- A selector change: the framework invokes the matching callback. -/
inductive Event where
  | pieSel (c : Option String)
  | mapSel (m : Option String)
  | areaSel (m : Option String)
  | barSel (m : Option String) (y : YearSel)
deriving Repr, DecidableEq

/-- Dispatch one selector change: run the callback on the current table.
Every pandas operation the callbacks perform (`filter`, `groupby`, `sum`,
`nlargest`, `copy`) returns a new frame and `df` is never reassigned, so
the state carried forward is the input state. -/
def step (s : AppState) (e : Event) : AppState × Except String Figure :=
  match e with
  | Event.pieSel c => (s, (update_pie_chart c s.df).map Figure.pie)
  | Event.mapSel m => (s, (update_map_chart m s.df).map Figure.map)
  | Event.areaSel m => (s, (update_area_chart m s.df).map Figure.area)
  | Event.barSel m y => (s, (update_bar_chart m y s.df).map Figure.bar)

/-- Run a sequence of selector changes from a state. -/
def runEvents (s : AppState) : List Event → AppState
  | [] => s
  | e :: es => runEvents (step s e).1 es

/-! Helper lemmas. -/

theorem mem_dedupFirst {α : Type} [DecidableEq α] (l : List α) :
    ∀ (seen : List α) (x : α),
      x ∈ dedupFirst seen l ↔ x ∈ l ∧ x ∉ seen := by
  induction l with
  | nil => intro seen x; simp [dedupFirst]
  | cons a l ih =>
      intro seen x
      by_cases ha : a ∈ seen
      · rw [show dedupFirst seen (a :: l) = dedupFirst seen l from by
            simp [dedupFirst, ha], ih]
        constructor
        · rintro ⟨hx, hns⟩; exact ⟨List.mem_cons_of_mem _ hx, hns⟩
        · rintro ⟨hx, hns⟩
          rcases List.mem_cons.mp hx with rfl | hx
          · exact absurd ha hns
          · exact ⟨hx, hns⟩
      · rw [show dedupFirst seen (a :: l) = a :: dedupFirst (a :: seen) l from by
            simp [dedupFirst, ha]]
        constructor
        · intro hx
          rcases List.mem_cons.mp hx with rfl | hx
          · exact ⟨List.mem_cons_self x l, ha⟩
          · rcases (ih _ x).mp hx with ⟨hxl, hxns⟩
            exact ⟨List.mem_cons_of_mem _ hxl,
              fun hs => hxns (List.mem_cons_of_mem _ hs)⟩
        · rintro ⟨hx, hns⟩
          rcases List.mem_cons.mp hx with rfl | hx
          · exact List.mem_cons_self _ _
          · by_cases hxa : x = a
            · subst hxa; exact List.mem_cons_self _ _
            · refine List.mem_cons_of_mem _ ((ih _ x).mpr ⟨hx, ?_⟩)
              intro hs
              rcases List.mem_cons.mp hs with h1 | h2
              · exact hxa h1
              · exact hns h2

theorem nodup_dedupFirst {α : Type} [DecidableEq α] (l : List α) :
    ∀ seen : List α, (dedupFirst seen l).Nodup := by
  induction l with
  | nil => intro seen; simp [dedupFirst]
  | cons a l ih =>
      intro seen
      by_cases ha : a ∈ seen
      · simpa [dedupFirst, if_pos ha] using ih seen
      · simp only [dedupFirst, if_neg ha, List.nodup_cons]
        refine ⟨fun hmem => ?_, ih _⟩
        exact ((mem_dedupFirst l _ a).mp hmem).2 (List.mem_cons_self a _)

theorem keys_groupbySumCountry (f : Row → Nat) (t : List Row) :
    (groupbySumCountry f t).map Prod.fst =
      List.insertionSort (fun a b => a ≤ b)
        (dedupFirst [] (t.map Row.country_name)) := by
  unfold groupbySumCountry
  rw [List.map_map]
  exact List.map_id' _

theorem mem_keys_groupbySumCountry (f : Row → Nat) (t : List Row)
    (c : String) :
    c ∈ (groupbySumCountry f t).map Prod.fst ↔
      ∃ r ∈ t, r.country_name = c := by
  rw [keys_groupbySumCountry]
  rw [(List.perm_insertionSort _ _).mem_iff]
  rw [mem_dedupFirst]
  simp [List.mem_map, eq_comm]

theorem snd_eq_of_mem_groupbySumCountry (f : Row → Nat) (t : List Row)
    (p : String × Nat) (hp : p ∈ groupbySumCountry f t) :
    p.2 = countrySum f p.1 t := by
  unfold groupbySumCountry at hp
  rcases List.mem_map.mp hp with ⟨c, _, rfl⟩
  rfl

theorem nodup_keys_groupbySumCountry (f : Row → Nat) (t : List Row) :
    ((groupbySumCountry f t).map Prod.fst).Nodup := by
  rw [keys_groupbySumCountry]
  exact ((List.perm_insertionSort _ _).nodup_iff).mpr (nodup_dedupFirst _ _)

theorem length_groupbySumCountry (f : Row → Nat) (t : List Row) :
    (groupbySumCountry f t).length =
      (dedupFirst [] (t.map Row.country_name)).length := by
  unfold groupbySumCountry
  rw [List.length_map, (List.perm_insertionSort _ _).length_eq]

theorem pairwise_nlargestPairs (n : Nat) (l : List (String × Nat)) :
    (nlargestPairs n l).Pairwise geSnd :=
  (List.sorted_insertionSort geSnd l).sublist (List.take_sublist n _)

theorem length_nlargestPairs (n : Nat) (l : List (String × Nat)) :
    (nlargestPairs n l).length = min n l.length := by
  unfold nlargestPairs
  rw [List.length_take, (List.perm_insertionSort _ _).length_eq]

theorem mem_of_mem_nlargestPairs {n : Nat} {l : List (String × Nat)}
    {p : String × Nat} (hp : p ∈ nlargestPairs n l) : p ∈ l :=
  (List.perm_insertionSort geSnd l).mem_iff.mp
    (List.mem_of_mem_take hp)

theorem nodup_keys_nlargestPairs (n : Nat) (l : List (String × Nat))
    (h : (l.map Prod.fst).Nodup) :
    ((nlargestPairs n l).map Prod.fst).Nodup := by
  have hperm : List.Perm ((List.insertionSort geSnd l).map Prod.fst)
      (l.map Prod.fst) :=
    (List.perm_insertionSort geSnd l).map Prod.fst
  have hnd : ((List.insertionSort geSnd l).map Prod.fst).Nodup :=
    hperm.nodup_iff.mpr h
  have hsub : List.Sublist ((nlargestPairs n l).map Prod.fst)
      ((List.insertionSort geSnd l).map Prod.fst) :=
    List.Sublist.map Prod.fst (List.take_sublist n (List.insertionSort geSnd l))
  exact List.Nodup.sublist hsub hnd

theorem nlargestPairs_dominates {n : Nat} {l : List (String × Nat)}
    {p q : String × Nat} (hp : p ∈ nlargestPairs n l) (hq : q ∈ l)
    (hqout : q ∉ nlargestPairs n l) : q.2 ≤ p.2 := by
  have hq2 : q ∈ List.insertionSort geSnd l :=
    (List.perm_insertionSort geSnd l).mem_iff.mpr hq
  have hsplit := List.take_append_drop n (List.insertionSort geSnd l)
  have hsorted : (List.insertionSort geSnd l).Pairwise geSnd :=
    List.sorted_insertionSort geSnd l
  rw [← hsplit] at hsorted hq2
  rcases List.mem_append.mp hq2 with hin | hdrop
  · exact absurd hin hqout
  · exact (List.pairwise_append.mp hsorted).2.2 p hp q hdrop

theorem sum_three_cols (l : List Row) :
    (l.map Row.gold).sum + (l.map Row.silver).sum + (l.map Row.bronze).sum =
      (l.map (fun r => r.gold + r.silver + r.bronze)).sum := by
  induction l with
  | nil => rfl
  | cons r l ih =>
      simp only [List.map_cons, List.sum_cons]
      omega

/-! The claims. -/

/-- C7: after loading, every working-table row satisfies
`1992 ≤ Year ≤ 2020`, carries `Total_Medals = Gold + Silver + Bronze`, and
never has the literal country name "United States"; a source row named
"United States" inside the year range appears under
"United States of America" with its other fields preserved. -/
theorem C7_working_table_rows (rows : List RawRow) :
    (∀ r ∈ buildWorkingTable rows,
        1992 ≤ r.year ∧ r.year ≤ 2020 ∧
        r.total_medals = r.gold + r.silver + r.bronze ∧
        r.country_name ≠ "United States") ∧
    (∀ s ∈ rows, s.country_name = "United States" →
        1992 ≤ s.year → s.year ≤ 2020 →
        ∃ r ∈ buildWorkingTable rows,
          r.country_name = "United States of America" ∧ r.year = s.year ∧
          r.gold = s.gold ∧ r.silver = s.silver ∧ r.bronze = s.bronze) := by
  constructor
  · intro r hr
    unfold buildWorkingTable at hr
    rcases List.mem_map.mp hr with ⟨u, hu, rfl⟩
    rcases List.mem_filter.mp hu with ⟨hu1, hu2⟩
    have hyear : 1992 ≤ u.year ∧ u.year ≤ 2020 := of_decide_eq_true hu2
    rcases List.mem_map.mp hu1 with ⟨v, _, rfl⟩
    refine ⟨hyear.1, hyear.2, rfl, ?_⟩
    unfold renameCountry
    by_cases hv : v.country_name = "United States"
    · simp only [if_pos hv, addTotal]
      intro h
      exact absurd h (by decide)
    · simp only [if_neg hv, addTotal]
      exact hv
  · intro s hs hname h1 h2
    refine ⟨addTotal (renameCountry s), ?_, ?_⟩
    · unfold buildWorkingTable
      refine List.mem_map.mpr ⟨renameCountry s, ?_, rfl⟩
      refine List.mem_filter.mpr ⟨List.mem_map.mpr ⟨s, hs, rfl⟩, ?_⟩
      have hy : (renameCountry s).year = s.year := by
        unfold renameCountry
        by_cases hv : s.country_name = "United States" <;> simp [hv]
      exact decide_eq_true (by rw [hy]; exact ⟨h1, h2⟩)
    · unfold renameCountry
      simp [if_pos hname, addTotal]

/-- A raw dataset used to instantiate the loader claims. -/
def sampleRaw : List RawRow :=
  [{ year := 2000, host_country := "Australia", host_city := "Sydney",
     country_name := "United States", country_code := "USA",
     gold := 37, silver := 24, bronze := 32 },
   { year := 1980, host_country := "Soviet Union", host_city := "Moscow",
     country_name := "France", country_code := "FRA",
     gold := 6, silver := 5, bronze := 3 }]

/-- The single row surviving the year filter of `sampleRaw`, renamed and
with its derived total. -/
def sampleLoadedRow : Row :=
  { year := 2000, host_country := "Australia", host_city := "Sydney",
    country_name := "United States of America", country_code := "USA",
    gold := 37, silver := 24, bronze := 32, total_medals := 93 }

theorem C7_working_table_rows_witness :
    1992 ≤ sampleLoadedRow.year ∧ sampleLoadedRow.year ≤ 2020 ∧
      sampleLoadedRow.total_medals =
        sampleLoadedRow.gold + sampleLoadedRow.silver + sampleLoadedRow.bronze ∧
      sampleLoadedRow.country_name ≠ "United States" :=
  (C7_working_table_rows sampleRaw).1 sampleLoadedRow (by decide)

/-- C8: a parsed CSV missing required columns makes the loader terminate
startup with a message naming exactly the missing columns, and a
fetch/parse failure terminates startup reporting the underlying error. -/
theorem C8_loader_fail_fast :
    (∀ d : CsvData, missing_cols d.header ≠ [] →
        load_csv (Except.ok d) =
          Except.error
            ("Error: The CSV file is missing the following expected columns: "
              ++ String.intercalate ", " (missing_cols d.header)) ∧
        ∀ col, col ∈ missing_cols d.header ↔
          (col ∈ expected_cols_from_user ∧ col ∉ d.header)) ∧
    (∀ e : String,
        load_csv (Except.error e) =
          Except.error ("Error loading CSV: " ++ e)) := by
  constructor
  · intro d hd
    constructor
    · unfold load_csv
      have hne : (missing_cols d.header).isEmpty = false := by
        cases hmc : missing_cols d.header with
        | nil => exact absurd hmc hd
        | cons a l => rfl
      simp [hne]
    · intro col
      unfold missing_cols
      simp [List.mem_filter]
  · intro e; rfl

theorem C8_loader_fail_fast_witness :
    missing_cols ["Year", "Gold"] ≠ [] ∧
      load_csv (Except.ok { header := ["Year", "Gold"], rows := sampleRaw }) =
        Except.error
          ("Error: The CSV file is missing the following expected columns: "
            ++ String.intercalate ", "
                (missing_cols ["Year", "Gold"])) :=
  ⟨by decide,
   (C8_loader_fail_fast.1 { header := ["Year", "Gold"], rows := sampleRaw }
      (by decide)).1⟩

/-- C3: for a country name present in the working table (and non-empty,
since the empty string is falsy in Python and takes the no-selection
branch), the pie callback returns exactly the three slices Gold, Silver,
Bronze in that fixed order, and their values sum to the sum of
`Gold + Silver + Bronze` over that country's rows. -/
theorem C3_pie_sum (t : List Row) (c : String) (hc : c ≠ "")
    (hmem : ∃ r ∈ t, r.country_name = c) :
    ∃ g s b : Nat,
      update_pie_chart (some c) t =
        Except.ok
          { title := "Medal Distribution for " ++ c ++ " (1992-2020)",
            note := none,
            data := [("Gold", g), ("Silver", s), ("Bronze", b)],
            colors := [("Gold", "gold"), ("Silver", "silver"),
                       ("Bronze", "#cd7f32")] } ∧
      g + s + b =
        ((t.filter (fun r => decide (r.country_name = c))).map
            (fun r => r.gold + r.silver + r.bronze)).sum := by
  rcases hmem with ⟨r, hr, hrc⟩
  have hne : (t.filter (fun r => decide (r.country_name = c))).isEmpty
      = false := by
    have : r ∈ t.filter (fun r => decide (r.country_name = c)) :=
      List.mem_filter.mpr ⟨hr, decide_eq_true hrc⟩
    cases hft : t.filter (fun r => decide (r.country_name = c)) with
    | nil => rw [hft] at this; exact absurd this (List.not_mem_nil r)
    | cons a l => rfl
  refine ⟨((t.filter (fun r => decide (r.country_name = c))).map Row.gold).sum,
    ((t.filter (fun r => decide (r.country_name = c))).map Row.silver).sum,
    ((t.filter (fun r => decide (r.country_name = c))).map Row.bronze).sum,
    ?_, ?_⟩
  · simp only [update_pie_chart]
    rw [if_neg hc]
    simp only [hne]
    rfl
  · exact sum_three_cols _

/-- A working table used to instantiate the callback claims: two
countries, two years. -/
def sampleTable : List Row :=
  [{ year := 2000, host_country := "Australia", host_city := "Sydney",
     country_name := "France", country_code := "FRA",
     gold := 6, silver := 5, bronze := 3, total_medals := 14 },
   { year := 2004, host_country := "Greece", host_city := "Athens",
     country_name := "France", country_code := "FRA",
     gold := 4, silver := 6, bronze := 5, total_medals := 15 },
   { year := 2000, host_country := "Australia", host_city := "Sydney",
     country_name := "Brazil", country_code := "BRA",
     gold := 0, silver := 3, bronze := 3, total_medals := 6 }]

theorem C3_pie_sum_witness :
    ∃ g s b : Nat,
      update_pie_chart (some "France") sampleTable =
        Except.ok
          { title := "Medal Distribution for France (1992-2020)",
            note := none,
            data := [("Gold", g), ("Silver", s), ("Bronze", b)],
            colors := [("Gold", "gold"), ("Silver", "silver"),
                       ("Bronze", "#cd7f32")] } ∧
      g + s + b =
        ((sampleTable.filter
            (fun r => decide (r.country_name = "France"))).map
            (fun r => r.gold + r.silver + r.bronze)).sum :=
  C3_pie_sum sampleTable "France" (by decide)
    ⟨sampleTable.head (by decide), by decide, by decide⟩

/-- C6: a `None` country selection yields the no-selection placeholder and
a country absent from the working table yields the no-data placeholder;
both are ordinary figures, never an error. -/
theorem C6_pie_placeholders (t : List Row) (c : String) (hc : c ≠ "")
    (habs : ∀ r ∈ t, r.country_name ≠ c) :
    update_pie_chart none t =
      Except.ok { title := "Please select a country",
                  note := some "No country selected",
                  data := [], colors := [] } ∧
    update_pie_chart (some c) t =
      Except.ok { title := "No data for " ++ c ++ " (1992-2020)",
                  note := some "No data available",
                  data := [], colors := [] } := by
  constructor
  · rfl
  · have hfil : t.filter (fun r => decide (r.country_name = c)) = [] := by
      rw [List.filter_eq_nil_iff]
      intro r hr
      simp only [decide_eq_true_eq]
      exact habs r hr
    simp only [update_pie_chart]
    rw [if_neg hc]
    simp [hfil]

theorem C6_pie_placeholders_witness :
    update_pie_chart none sampleTable =
      Except.ok { title := "Please select a country",
                  note := some "No country selected",
                  data := [], colors := [] } ∧
    update_pie_chart (some "Atlantis") sampleTable =
      Except.ok { title := "No data for Atlantis (1992-2020)",
                  note := some "No data available",
                  data := [], colors := [] } :=
  C6_pie_placeholders sampleTable "Atlantis" (by decide) (by decide)

/-- C10: with a non-empty working table the country dropdown options are
the distinct country names in strictly ascending lexicographic order and
the initial selection is the smallest of them; with an empty table the
initial selection is `None`. -/
theorem C10_country_dropdown (t : List Row) :
    (t ≠ [] →
      (all_countries t).Pairwise (fun a b => a ≤ b) ∧
      (all_countries t).Nodup ∧
      (∀ c, c ∈ all_countries t ↔ ∃ r ∈ t, r.country_name = c) ∧
      ∃ c0, initial_country t = some c0 ∧ c0 ∈ all_countries t ∧
        ∀ c ∈ all_countries t, c0 ≤ c) ∧
    (t = [] → initial_country t = none) := by
  have hmem : ∀ c, c ∈ all_countries t ↔ ∃ r ∈ t, r.country_name = c := by
    intro c
    unfold all_countries
    rw [(List.perm_insertionSort _ _).mem_iff, mem_dedupFirst]
    simp [List.mem_map, eq_comm]
  have hsorted : (all_countries t).Pairwise (fun a b => a ≤ b) :=
    List.sorted_insertionSort _ _
  have hnodup : (all_countries t).Nodup :=
    ((List.perm_insertionSort _ _).nodup_iff).mpr (nodup_dedupFirst _ _)
  constructor
  · intro ht
    refine ⟨hsorted, hnodup, hmem, ?_⟩
    cases hac : all_countries t with
    | nil =>
        cases t with
        | nil => exact absurd rfl ht
        | cons r t' =>
            have : r.country_name ∈ all_countries (r :: t') :=
              (hmem r.country_name).mpr ⟨r, List.mem_cons_self r t', rfl⟩
            rw [hac] at this
            exact absurd this (List.not_mem_nil _)
    | cons c0 rest =>
        refine ⟨c0, ?_, ?_, ?_⟩
        · unfold initial_country
          rw [hac]
        · exact List.mem_cons_self c0 rest
        · intro c hcmem
          rw [hac] at hsorted
          rcases List.mem_cons.mp hcmem with rfl | hcr
          · exact le_refl c
          · exact (List.pairwise_cons.mp hsorted).1 c hcr
  · intro ht
    subst ht
    rfl

theorem C10_country_dropdown_witness :
    (all_countries sampleTable).Pairwise (fun a b => a ≤ b) ∧
      (all_countries sampleTable).Nodup ∧
      (∀ c, c ∈ all_countries sampleTable ↔
        ∃ r ∈ sampleTable, r.country_name = c) ∧
      ∃ c0, initial_country sampleTable = some c0 ∧
        c0 ∈ all_countries sampleTable ∧
        ∀ c ∈ all_countries sampleTable, c0 ≤ c :=
  (C10_country_dropdown sampleTable).1 (by decide)

theorem map_chart_props (t : List Row) (col : String) (f : Row → Nat)
    (hf : colFn col = some f) :
    ∃ fig : MapFig, update_map_chart (some col) t = Except.ok fig ∧
      (fig.rows.map Prod.fst).Nodup ∧
      (∀ c, c ∈ fig.rows.map Prod.fst ↔ ∃ r ∈ t, r.country_name = c) ∧
      ∀ p ∈ fig.rows, p.2 = countrySum f p.1 t := by
  refine ⟨{ title := "Total " ++ col.replace "_" " "
              ++ " by Country (1992-2020)",
            rows := groupbySumCountry f t }, ?_, ?_, ?_, ?_⟩
  · simp only [update_map_chart, hf]
  · exact nodup_keys_groupbySumCountry f t
  · exact mem_keys_groupbySumCountry f t
  · exact snd_eq_of_mem_groupbySumCountry f t

/-- C4: for each of the four medal metrics the map aggregation yields
exactly one row per distinct country of the working table - every country
with at least one row appears, no top-N truncation - and each row carries
that country's summed metric. -/
theorem C4_map_one_row_per_country (t : List Row) (col : String)
    (hcol : col ∈ medal_types) :
    ∃ f fig, colFn col = some f ∧
      update_map_chart (some col) t = Except.ok fig ∧
      (fig.rows.map Prod.fst).Nodup ∧
      (∀ c, c ∈ fig.rows.map Prod.fst ↔ ∃ r ∈ t, r.country_name = c) ∧
      ∀ p ∈ fig.rows, p.2 = countrySum f p.1 t := by
  have hcases : col = "Gold" ∨ col = "Silver" ∨ col = "Bronze" ∨
      col = "Total_Medals" := by simpa [medal_types] using hcol
  rcases hcases with rfl | rfl | rfl | rfl
  · rcases map_chart_props t "Gold" Row.gold rfl with ⟨fig, h1, h2, h3, h4⟩
    exact ⟨Row.gold, fig, rfl, h1, h2, h3, h4⟩
  · rcases map_chart_props t "Silver" Row.silver rfl with ⟨fig, h1, h2, h3, h4⟩
    exact ⟨Row.silver, fig, rfl, h1, h2, h3, h4⟩
  · rcases map_chart_props t "Bronze" Row.bronze rfl with ⟨fig, h1, h2, h3, h4⟩
    exact ⟨Row.bronze, fig, rfl, h1, h2, h3, h4⟩
  · rcases map_chart_props t "Total_Medals" Row.total_medals rfl with
      ⟨fig, h1, h2, h3, h4⟩
    exact ⟨Row.total_medals, fig, rfl, h1, h2, h3, h4⟩

theorem C4_map_one_row_per_country_witness :
    ∃ f fig, colFn "Silver" = some f ∧
      update_map_chart (some "Silver") sampleTable = Except.ok fig ∧
      (fig.rows.map Prod.fst).Nodup ∧
      (∀ c, c ∈ fig.rows.map Prod.fst ↔
        ∃ r ∈ sampleTable, r.country_name = c) ∧
      ∀ p ∈ fig.rows, p.2 = countrySum f p.1 sampleTable :=
  C4_map_one_row_per_country sampleTable "Silver" (by decide)

theorem update_bar_chart_eq (col : String) (f : Row → Nat) (ys : YearSel)
    (t : List Row) (hf : colFn col = some f) :
    update_bar_chart (some col) ys t =
      Except.ok
        { title := "Top 10 Countries by " ++ col.replace "_" " " ++ " in "
            ++ barTitleSegment ys t,
          rows := nlargestPairs 10 (groupbySumCountry f (barBase ys t)),
          barColor :=
            if col = "Gold" then some "gold"
            else if col = "Silver" then some "silver"
            else if col = "Bronze" then some "#cd7f32"
            else none } := by
  simp only [update_bar_chart, hf]

/-- C2: with year `'All'` the bar aggregation returns at most 10
`(country, sum)` rows in descending order of the summed metric, each row
carrying its country's total; with a specific year it restricts the table
to that year first and performs the same computation. -/
theorem C2_bar_top10 (t : List Row) (col : String) (f : Row → Nat)
    (hf : colFn col = some f) (y : Int) :
    (∃ fig, update_bar_chart (some col) YearSel.all t = Except.ok fig ∧
        fig.rows.length ≤ 10 ∧
        fig.rows.Pairwise (fun p q => q.2 ≤ p.2) ∧
        ∀ p ∈ fig.rows, p.2 = countrySum f p.1 t) ∧
    (∃ figY figA,
        update_bar_chart (some col) (YearSel.year y) t = Except.ok figY ∧
        update_bar_chart (some col) YearSel.all
            (t.filter (fun r => decide (r.year = y))) = Except.ok figA ∧
        figY.rows = figA.rows) := by
  constructor
  · refine ⟨_, update_bar_chart_eq col f YearSel.all t hf, ?_, ?_, ?_⟩
    · rw [length_nlargestPairs]
      exact min_le_left _ _
    · exact pairwise_nlargestPairs _ _
    · intro p hp
      exact snd_eq_of_mem_groupbySumCountry f t p (mem_of_mem_nlargestPairs hp)
  · exact ⟨_, _, update_bar_chart_eq col f (YearSel.year y) t hf,
      update_bar_chart_eq col f YearSel.all _ hf, rfl⟩

theorem C2_bar_top10_witness :
    (∃ fig, update_bar_chart (some "Gold") YearSel.all sampleTable =
        Except.ok fig ∧
        fig.rows.length ≤ 10 ∧
        fig.rows.Pairwise (fun p q => q.2 ≤ p.2) ∧
        ∀ p ∈ fig.rows, p.2 = countrySum Row.gold p.1 sampleTable) ∧
    (∃ figY figA,
        update_bar_chart (some "Gold") (YearSel.year 2000) sampleTable =
          Except.ok figY ∧
        update_bar_chart (some "Gold") YearSel.all
            (sampleTable.filter (fun r => decide (r.year = 2000))) =
          Except.ok figA ∧
        figY.rows = figA.rows) :=
  C2_bar_top10 sampleTable "Gold" Row.gold rfl 2000

theorem step_fst (s : AppState) (e : Event) : (step s e).1 = s := by
  cases e <;> rfl

theorem runEvents_id (s : AppState) (evs : List Event) :
    runEvents s evs = s := by
  induction evs generalizing s with
  | nil => rfl
  | cons e es ih =>
      show runEvents (step s e).1 es = s
      rw [step_fst]
      exact ih s

/-- C9: the working table is built once at startup, any sequence of
callback invocations with any selector values leaves the application state
- the table and the three dropdown option lists - exactly as initialized.
Every pandas operation the callbacks perform returns a fresh frame; `df`
is never reassigned. -/
theorem C9_state_immutable (t : List Row) (evs : List Event) :
    runEvents (init_app t) evs = init_app t ∧
    (runEvents (init_app t) evs).df = t ∧
    (runEvents (init_app t) evs).country_options = all_countries t ∧
    (runEvents (init_app t) evs).medal_options = medal_types ∧
    (runEvents (init_app t) evs).year_options = yearOptionsOf t := by
  rw [runEvents_id]
  exact ⟨rfl, rfl, rfl, rfl, rfl⟩

theorem update_area_chart_eq (col : String) (f : Row → Nat) (t : List Row)
    (hf : colFn col = some f) :
    update_area_chart (some col) t =
      Except.ok
        { title := "Top 10 Countries by " ++ col.replace "_" " "
            ++ " (1992-2020)",
          rows := (groupbySumCountryYear f t).filter
            (fun p => decide (p.1.1 ∈ topCountries f 10 t)) } := by
  simp only [update_area_chart, hf]

/-- C5 as stated fails on the code: clearing the medal-type dropdown
passes `None` to the map callback, whose
`df.groupby('Country_Name', as_index=False)[None].sum()` raises
`KeyError` - a crash surfaced as a callback error, not an
empty/placeholder chart. -/
theorem C5_counterexample :
    update_map_chart none sampleTable = Except.error "KeyError: None" := rfl

/-- C5 amended: the pie callback never errors for any country selection,
and for any medal selection that is one of the four metric columns the
map, area and bar callbacks never error either, for every year selection
(including `None` and years absent from the table); only a null or
non-column medal-metric selection makes the map, area and bar callbacks
raise. -/
theorem C5_amended_nonfatal (t : List Row) (c : Option String)
    (ys : YearSel) (col : String) (f : Row → Nat)
    (hf : colFn col = some f) :
    (∃ fig, update_pie_chart c t = Except.ok fig) ∧
    (∃ fig, update_map_chart (some col) t = Except.ok fig) ∧
    (∃ fig, update_area_chart (some col) t = Except.ok fig) ∧
    (∃ fig, update_bar_chart (some col) ys t = Except.ok fig) := by
  refine ⟨?_, ?_, ?_, ?_⟩
  · cases c with
    | none => exact ⟨_, rfl⟩
    | some cc =>
        simp only [update_pie_chart]
        by_cases hcc : cc = ""
        · rw [if_pos hcc]
          exact ⟨_, rfl⟩
        · rw [if_neg hcc]
          by_cases hemp :
              (t.filter (fun r => decide (r.country_name = cc))).isEmpty = true
          · rw [if_pos hemp]
            exact ⟨_, rfl⟩
          · rw [if_neg hemp]
            exact ⟨_, rfl⟩
  · rcases map_chart_props t col f hf with ⟨fig, hfig, _⟩
    exact ⟨fig, hfig⟩
  · exact ⟨_, update_area_chart_eq col f t hf⟩
  · exact ⟨_, update_bar_chart_eq col f ys t hf⟩

theorem C5_amended_nonfatal_witness :
    (∃ fig, update_pie_chart none sampleTable = Except.ok fig) ∧
    (∃ fig, update_map_chart (some "Gold") sampleTable = Except.ok fig) ∧
    (∃ fig, update_area_chart (some "Gold") sampleTable = Except.ok fig) ∧
    (∃ fig, update_bar_chart (some "Gold") YearSel.null sampleTable =
      Except.ok fig) :=
  C5_amended_nonfatal sampleTable none YearSel.null "Gold" Row.gold rfl

theorem mem_groupbySumCountryYear_of_row (f : Row → Nat) (t : List Row)
    (r : Row) (hr : r ∈ t) :
    ((r.country_name, r.year), countryYearSum f r.country_name r.year t)
      ∈ groupbySumCountryYear f t := by
  unfold groupbySumCountryYear
  refine List.mem_map.mpr ⟨(r.country_name, r.year), ?_, rfl⟩
  refine (List.perm_insertionSort _ _).mem_iff.mpr ?_
  refine (mem_dedupFirst _ _ _).mpr ⟨List.mem_map.mpr ⟨r, hr, rfl⟩, ?_⟩
  simp

theorem country_of_mem_topCountries (f : Row → Nat) (n : Nat) (t : List Row)
    (c : String) (hc : c ∈ topCountries f n t) :
    ∃ r ∈ t, r.country_name = c := by
  unfold topCountries at hc
  rcases List.mem_map.mp hc with ⟨p, hp, rfl⟩
  exact (mem_keys_groupbySumCountry f t p.1).mp
    (List.mem_map.mpr ⟨p, mem_of_mem_nlargestPairs hp, rfl⟩)

/-- C1: for any metric column the area aggregation plots rows for exactly
`min 10 (number of distinct countries)` countries, namely a duplicate-free
selection `topCountries f 10 t` of countries of the table; a country
appears among the plotted rows exactly when it is in that selection, and
every selected country's all-years sum is at least every unselected
country's all-years sum (with ties the stable sort decides, as the spec
itself flags). -/
theorem C1_area_top10 (t : List Row) (col : String) (f : Row → Nat)
    (hf : colFn col = some f) :
    ∃ fig, update_area_chart (some col) t = Except.ok fig ∧
      (topCountries f 10 t).Nodup ∧
      (topCountries f 10 t).length =
        min 10 (dedupFirst [] (t.map Row.country_name)).length ∧
      (∀ c, (∃ p ∈ fig.rows, p.1.1 = c) ↔ c ∈ topCountries f 10 t) ∧
      (∀ c ∈ topCountries f 10 t, ∃ r ∈ t, r.country_name = c) ∧
      (∀ c ∈ topCountries f 10 t, ∀ d,
          (∃ r ∈ t, r.country_name = d) → d ∉ topCountries f 10 t →
          countrySum f d t ≤ countrySum f c t) := by
  refine ⟨_, update_area_chart_eq col f t hf, ?_, ?_, ?_, ?_, ?_⟩
  · exact nodup_keys_nlargestPairs 10 _ (nodup_keys_groupbySumCountry f t)
  · unfold topCountries
    rw [List.length_map, length_nlargestPairs, length_groupbySumCountry]
  · intro c
    constructor
    · rintro ⟨p, hp, rfl⟩
      rcases List.mem_filter.mp hp with ⟨_, hptop⟩
      exact of_decide_eq_true hptop
    · intro hc
      rcases country_of_mem_topCountries f 10 t c hc with ⟨r, hr, hrc⟩
      refine ⟨((r.country_name, r.year),
        countryYearSum f r.country_name r.year t), ?_, hrc⟩
      refine List.mem_filter.mpr
        ⟨mem_groupbySumCountryYear_of_row f t r hr, ?_⟩
      exact decide_eq_true (by simpa [hrc] using hc)
  · exact fun c hc => country_of_mem_topCountries f 10 t c hc
  · intro c hc d hd hdout
    unfold topCountries at hc
    rcases List.mem_map.mp hc with ⟨p, hp, rfl⟩
    have hp2 : p.2 = countrySum f p.1 t :=
      snd_eq_of_mem_groupbySumCountry f t p (mem_of_mem_nlargestPairs hp)
    rcases List.mem_map.mp ((mem_keys_groupbySumCountry f t d).mpr hd)
      with ⟨q, hq, hq1⟩
    have hq2 : q.2 = countrySum f d t := by
      rw [snd_eq_of_mem_groupbySumCountry f t q hq, hq1]
    have hqout : q ∉ nlargestPairs 10 (groupbySumCountry f t) := by
      intro hin
      exact hdout (List.mem_map.mpr ⟨q, hin, hq1⟩)
    have hdom := nlargestPairs_dominates hp hq hqout
    rw [hq2, hp2] at hdom
    exact hdom

theorem C1_area_top10_witness :
    ∃ fig, update_area_chart (some "Gold") sampleTable = Except.ok fig ∧
      (topCountries Row.gold 10 sampleTable).Nodup ∧
      (topCountries Row.gold 10 sampleTable).length =
        min 10 (dedupFirst [] (sampleTable.map Row.country_name)).length ∧
      (∀ c, (∃ p ∈ fig.rows, p.1.1 = c) ↔
        c ∈ topCountries Row.gold 10 sampleTable) ∧
      (∀ c ∈ topCountries Row.gold 10 sampleTable,
        ∃ r ∈ sampleTable, r.country_name = c) ∧
      (∀ c ∈ topCountries Row.gold 10 sampleTable, ∀ d,
          (∃ r ∈ sampleTable, r.country_name = d) →
          d ∉ topCountries Row.gold 10 sampleTable →
          countrySum Row.gold d sampleTable ≤
            countrySum Row.gold c sampleTable) :=
  C1_area_top10 sampleTable "Gold" Row.gold rfl
